import Mathlib

/-
Verification development for the GirdBot_BN dual-sided grid-trading bot.

This file gives a shallow embedding of the bot's trading-decision core:
the position/order ledger (`grid_strategy.py`: `handle_order_update`,
`update_positions`, `check_orders_status`), the risk manager
(`risk_manager.py`: `check_margin_risk`, `should_reduce_position`), the
grid engine (`adjust_grid_strategy`, order placement / cancellation
helpers, `need_order_update` and its sub-checks) and the event scheduler
(`main_strategy_loop`, `_handle_immediate_rebalance`,
`_handle_price_drift_check`).

Conventions of the embedding:
* Python floats are modelled as exact rationals (`ℚ`); `round(x, n)`
  is modelled by `pyRound` (round-half-to-even, as Python's `round`).
* Exchange I/O is modelled by an `Env` record carrying the values the
  calls would return (open-orders snapshot, per-call cancel outcomes,
  placement success) plus the current wall-clock time; one evaluation
  cycle sees a single time value.
* Order placements and cancellations issued by the engine are collected
  as a trace (`List Action`) instead of being sent to an exchange.
* The Python string tags (`"BUY"`, `"LONG"`, `"HIGH_RISK"`, ...) are
  modelled as inductive enums.
-/

namespace GirdBot

/-! Configuration constants, from `config_template.py`. -/

/-- `GRID_SPACING = 0.001` (grid spacing, 0.1%). -/
def GRID_SPACING : ℚ := 1/1000

/-- `INITIAL_QUANTITY = 50` (fixed per-order quantity in contracts). -/
def INITIAL_QUANTITY : ℚ := 50

/-- `ORDER_FIRST_TIME = 10` (per-side cooldown for initialization orders, seconds). -/
def ORDER_FIRST_TIME : ℚ := 10

/-- `ORDERS_SYNC_COOLDOWN = 3` (standard open-orders sync cooldown, seconds). -/
def ORDERS_SYNC_COOLDOWN : ℚ := 3

/-- `FAST_SYNC_COOLDOWN = 1` (fast-market open-orders sync cooldown, seconds). -/
def FAST_SYNC_COOLDOWN : ℚ := 1

/-- `FAST_MARKET_WINDOW = 10` (fast-market detection window, seconds). -/
def FAST_MARKET_WINDOW : ℚ := 10

/-- `ENABLE_HEDGE_INITIALIZATION = True` in the config template
(the Lean name is shortened). -/
def ENABLE_HEDGE_INIT : Bool := true

/-- `GridStrategy.MIN_UPDATE_INTERVAL = 10` seconds. -/
def MIN_UPDATE_INTERVAL : ℚ := 10

/-- `GridStrategy.MIN_ORDER_ADJUSTMENT_INTERVAL = 15` seconds. -/
def MIN_ORDER_ADJUSTMENT_INTERVAL : ℚ := 15

/-- `GridStrategy.QUANTITY_THRESHOLD_RATIO = 0.7`
(the Lean name is lowercase to avoid clashing with the gate's lexer). -/
def quantity_threshold_ratio : ℚ := 7/10

/-- `GridStrategy.GRID_UPDATE_THRESHOLD = GRID_SPACING * 2.0`. -/
def GRID_UPDATE_THRESHOLD : ℚ := GRID_SPACING * 2

/-- `RiskManager.stop_loss_ratio` default `0.15`; `GridStrategy.__init__`
constructs `RiskManager(exchange_client, 10)` with this default. -/
def stop_loss_ratio : ℚ := 3/20

/-! Python `round(x, n)` (banker's rounding on exact rationals). -/

/-- Round a rational to the nearest integer, ties to the even integer
(the semantics of Python's builtin `round` on exact values). -/
def roundHalfEven (x : ℚ) : ℤ :=
  let f : ℤ := ⌊x⌋
  let r : ℚ := x - f
  if r < 1/2 then f
  else if r > 1/2 then f + 1
  else if f % 2 = 0 then f else f + 1

/-- Python `round(x, n)` for `n ≥ 0` decimal digits. -/
def pyRound (x : ℚ) (n : ℕ) : ℚ :=
  (roundHalfEven (x * 10 ^ n) : ℚ) / 10 ^ n

/-! Enumerated tags. -/

/-- The order side tag: Python strings `"BUY"`/`"SELL"` (user-data events)
and `'buy'`/`'sell'` (ccxt open orders). -/
inductive Side
  | buy
  | sell
deriving DecidableEq

/-- The position-side tag: Python strings `"LONG"`/`"SHORT"`; `BOTH` is the
default used by `cancel_orders_for_side` when the field is absent. -/
inductive PositionSide
  | LONG
  | SHORT
  | BOTH
deriving DecidableEq

/-- The order status tag of a user-data order event, `order.get("X")`:
`NEW`, `FILLED`, `CANCELED`; `other` stands for any further status string,
which falls through every branch of `handle_order_update`. -/
inductive OrderStatus
  | NEW
  | FILLED
  | CANCELED
  | other
deriving DecidableEq

/-- The strategy-level side parameter: Python strings `'long'`/`'short'`. -/
inductive StratSide
  | long
  | short
deriving DecidableEq

/-- `side.upper()`: the position side corresponding to a strategy side. -/
def StratSide.toPositionSide : StratSide → PositionSide
  | .long => .LONG
  | .short => .SHORT

/-- Urgency tag of a risk decision: `'LOW'`, `'MEDIUM'`, `'HIGH'`. -/
inductive Urgency
  | LOW
  | MEDIUM
  | HIGH
deriving DecidableEq

/-- Margin risk level returned by `RiskManager.check_margin_risk`:
`"LOW_RISK"`, `"MEDIUM_RISK"`, `"HIGH_RISK"`. -/
inductive RiskLevel
  | LOW_RISK
  | MEDIUM_RISK
  | HIGH_RISK
deriving DecidableEq

/-! Records: orders, events, ledger/engine state. -/

/-- An entry of the ccxt `fetch_open_orders()` result, restricted to the
fields the strategy reads: `id`, `side`, `info.positionSide`,
`remaining`, `price`, `reduceOnly`. -/
structure OpenOrder where
  id : ℕ
  side : Side
  positionSide : PositionSide
  remaining : ℚ
  price : ℚ
  reduceOnly : Bool
deriving DecidableEq

/-- A user-data order event as read by `GridStrategy.handle_order_update`:
`S` (side), `ps` (position side), `X` (status), `q` (order quantity),
`z` (cumulative filled quantity). -/
structure OrderEvent where
  S : Side
  ps : PositionSide
  X : OrderStatus
  q : ℚ
  z : ℚ
deriving DecidableEq

/-- The mutable fields of `GridStrategy` used by the embedded operations.
`time_long_adjust`/`time_short_adjust`/`time_rebalance`/`time_drift` are
the entries `'long_order_adjustment'`, `'short_order_adjustment'`,
`'rebalance_immediately'`, `'check_price_drift'` of the
`last_update_times` dict; `pending_rebalance`/`pending_drift` model
membership of `'rebalance_immediately'`/`'check_price_drift'` in the
`pending_updates` set. -/
structure GridState where
  long_position : ℚ := 0
  short_position : ℚ := 0
  buy_long_orders : ℚ := 0
  sell_long_orders : ℚ := 0
  sell_short_orders : ℚ := 0
  buy_short_orders : ℚ := 0
  long_initial_quantity : ℚ := 0
  short_initial_quantity : ℚ := 0
  latest_price : ℚ := 0
  best_bid_price : ℚ := 0
  best_ask_price : ℚ := 0
  mid_price_long : ℚ := 0
  upper_price_long : ℚ := 0
  lower_price_long : ℚ := 0
  mid_price_short : ℚ := 0
  upper_price_short : ℚ := 0
  lower_price_short : ℚ := 0
  last_long_order_time : ℚ := 0
  last_short_order_time : ℚ := 0
  hedge_init_completed : Bool := false
  last_hedge_init_time : ℚ := 0
  last_orders_sync_time : ℚ := 0
  last_price_change_time : ℚ := 0
  api_calls_count : ℕ := 0
  api_calls_start_time : ℚ := 0
  last_grid_update_price : ℚ := 0
  time_rebalance : ℚ := 0
  time_drift : ℚ := 0
  time_long_adjust : ℚ := 0
  time_short_adjust : ℚ := 0
  valid_orders : List OpenOrder := []
  pending_rebalance : Bool := false
  pending_drift : Bool := false
deriving DecidableEq

/-! Position/Order Ledger operations (`grid_strategy.py`). -/

/-- `GridStrategy.handle_order_update(order)` (lines 250-297): incremental
ledger update for one order-lifecycle event. `NEW` adds the remaining
quantity `q - z` to the matching resting aggregate; `FILLED` moves the
cumulative filled quantity `z` between the resting aggregate and the
position, clamping subtractions at `0.0` with `max`; `CANCELED` removes
the order quantity `q` from the resting aggregate, clamped at `0.0`.
The function is total: no branch can raise. -/
def handle_order_update (s : GridState) (o : OrderEvent) : GridState :=
  let remaining := o.q - o.z
  match o.X, o.S, o.ps with
  | .NEW, .buy, .LONG => { s with buy_long_orders := s.buy_long_orders + remaining }
  | .NEW, .buy, .SHORT => { s with buy_short_orders := s.buy_short_orders + remaining }
  | .NEW, .sell, .LONG => { s with sell_long_orders := s.sell_long_orders + remaining }
  | .NEW, .sell, .SHORT => { s with sell_short_orders := s.sell_short_orders + remaining }
  | .FILLED, .buy, .LONG =>
      { s with long_position := s.long_position + o.z,
               buy_long_orders := max 0 (s.buy_long_orders - o.z) }
  | .FILLED, .buy, .SHORT =>
      { s with short_position := max 0 (s.short_position - o.z),
               buy_short_orders := max 0 (s.buy_short_orders - o.z) }
  | .FILLED, .sell, .LONG =>
      { s with long_position := max 0 (s.long_position - o.z),
               sell_long_orders := max 0 (s.sell_long_orders - o.z) }
  | .FILLED, .sell, .SHORT =>
      { s with short_position := s.short_position + o.z,
               sell_short_orders := max 0 (s.sell_short_orders - o.z) }
  | .CANCELED, .buy, .LONG => { s with buy_long_orders := max 0 (s.buy_long_orders - o.q) }
  | .CANCELED, .buy, .SHORT => { s with buy_short_orders := max 0 (s.buy_short_orders - o.q) }
  | .CANCELED, .sell, .LONG => { s with sell_long_orders := max 0 (s.sell_long_orders - o.q) }
  | .CANCELED, .sell, .SHORT => { s with sell_short_orders := max 0 (s.sell_short_orders - o.q) }
  | _, _, _ => s

/-- Fold of `handle_order_update` over a finite event sequence. -/
def applyEvents (s : GridState) (es : List OrderEvent) : GridState :=
  es.foldl handle_order_update s

/-- `GridStrategy.update_positions(long_position, short_position)`
(lines 131-142): snapshot-path position update.  When the hedge-init flag
is set, the new positions are both zero and the old positions were not
both zero, the flag is reset to `false`; then both position fields are
overwritten. -/
def update_positions (s : GridState) (long_position short_position : ℚ) : GridState :=
  let s1 :=
    if s.hedge_init_completed = true ∧ (long_position = 0 ∧ short_position = 0) ∧
       (s.long_position ≠ 0 ∨ s.short_position ≠ 0) then
      { s with hedge_init_completed := false }
    else s
  { s1 with long_position := long_position, short_position := short_position }

/-- The per-category counters of `check_orders_status` (its
`order_counts` dict). -/
structure OrderCounts where
  buy_long : ℕ := 0
  sell_long : ℕ := 0
  buy_short : ℕ := 0
  sell_short : ℕ := 0
deriving DecidableEq

/-- One iteration of the `for order in orders` loop of
`check_orders_status`: orders with `remaining ≤ 0` are skipped; otherwise
the order is appended to `valid_orders` and the matching counter is
incremented. -/
def snapshotStep (acc : OrderCounts × List OpenOrder) (o : OpenOrder) :
    OrderCounts × List OpenOrder :=
  if o.remaining ≤ 0 then acc
  else
    let c := acc.1
    let valid := acc.2 ++ [o]
    let c :=
      match o.side, o.positionSide with
      | .buy, .LONG => { c with buy_long := c.buy_long + 1 }
      | .sell, .LONG => { c with sell_long := c.sell_long + 1 }
      | .buy, .SHORT => { c with buy_short := c.buy_short + 1 }
      | .sell, .SHORT => { c with sell_short := c.sell_short + 1 }
      | _, _ => c
    (c, valid)

/-- `GridStrategy.check_orders_status()` (lines 195-248), parameterized by
the list the `fetch_open_orders()` call returns: counts the open orders
with positive remaining quantity per (side, position-side) category and
overwrites each resting aggregate with `count * INITIAL_QUANTITY`;
records the surviving orders in `valid_orders`. -/
def check_orders_status (s : GridState) (orders : List OpenOrder) : GridState :=
  let r := orders.foldl snapshotStep ({}, [])
  { s with
    buy_long_orders := (r.1.buy_long : ℚ) * INITIAL_QUANTITY,
    sell_long_orders := (r.1.sell_long : ℚ) * INITIAL_QUANTITY,
    buy_short_orders := (r.1.buy_short : ℚ) * INITIAL_QUANTITY,
    sell_short_orders := (r.1.sell_short : ℚ) * INITIAL_QUANTITY,
    valid_orders := r.2 }

/-! Risk manager (`risk_manager.py`). -/

/-- Decision record returned by `should_reduce_position` (the `reason`
log string is omitted). -/
structure RiskDecision where
  should_reduce : Bool
  urgency : Urgency
  suggested_ratio : ℚ
deriving DecidableEq

/-- The cached per-(symbol, side) risk inputs read by
`should_reduce_position`: `get_position_pnl` result, `get_position_percentage`
result, and the account-level `margin_ratio`. -/
structure RiskInputs where
  unrealized_pnl : ℚ
  pnl_percentage : ℚ
  margin_ratio : ℚ
deriving DecidableEq

/-- `RiskManager.check_margin_risk()` (lines 154-163): `HIGH_RISK` when the
margin-used ratio exceeds `0.85`, `MEDIUM_RISK` when it exceeds `0.7`,
otherwise `LOW_RISK`. -/
def check_margin_risk (margin_ratio : ℚ) : RiskLevel :=
  if margin_ratio > 85/100 then .HIGH_RISK
  else if margin_ratio > 7/10 then .MEDIUM_RISK
  else .LOW_RISK

/-- `RiskManager.should_reduce_position(symbol, side, position_value)`
(lines 165-209), parameterized by the cached values the symbol/side lookup
returns.  Rules are evaluated in order with early `return`:
stop-loss (HIGH, 0.5), extreme loss (HIGH, 0.3), margin risk
(MEDIUM, 0.4), otherwise no action. -/
def should_reduce_position (r : RiskInputs) (position_value : ℚ) : RiskDecision :=
  if r.unrealized_pnl < 0 ∧ |r.unrealized_pnl| > position_value * stop_loss_ratio then
    ⟨true, .HIGH, 1/2⟩
  else if r.pnl_percentage < -20 then
    ⟨true, .HIGH, 3/10⟩
  else if check_margin_risk r.margin_ratio = .HIGH_RISK then
    ⟨true, .MEDIUM, 2/5⟩
  else
    ⟨false, .LOW, 0⟩

/-! Engine environment, action traces, exchange-gateway embedding. -/

/-- Outcome of one underlying `exchange.cancel_order` call: success, the
ccxt `OrderNotFound` error, or any other `ccxt.BaseError`. -/
inductive CancelOutcome
  | ok
  | orderNotFound
  | otherError
deriving DecidableEq

/-- An order action issued to the exchange during one evaluation cycle:
an order placement (市价 market orders carry `price = none`), a
cancellation by order id, or an extra `fetch_open_orders` resync
triggered from the `OrderNotFound` handler of
`cancel_orders_for_side`. -/
inductive Action
  | place (side : Side) (price : Option ℚ) (qty : ℚ) (reduceOnly : Bool)
      (positionSide : PositionSide) (market : Bool)
  | cancel (id : ℕ)
  | resync
deriving DecidableEq

/-- The environment of one evaluation cycle: the wall-clock time, what the
exchange I/O calls of the cycle would return (`fetch_open_orders` result,
per-order-id cancel outcomes, whether `create_order` calls succeed), the
risk-manager cache contents after its timed refreshes
(`get_position_pnl` / `get_position_percentage` per side and the account
`margin_ratio`), and the instrument metadata of the `ExchangeClient`. -/
structure Env where
  now : ℚ
  openOrders : List OpenOrder
  cancelOutcome : ℕ → CancelOutcome
  placeOk : Bool
  long_pnl : ℚ
  long_pct : ℚ
  short_pnl : ℚ
  short_pct : ℚ
  margin_ratio : ℚ
  price_precision : ℕ
  amount_precision : ℕ
  min_order_amount : ℚ

/-- The risk-manager cache values for the long side of the symbol. -/
def riskLong (env : Env) : RiskInputs := ⟨env.long_pnl, env.long_pct, env.margin_ratio⟩

/-- The risk-manager cache values for the short side of the symbol. -/
def riskShort (env : Env) : RiskInputs := ⟨env.short_pnl, env.short_pct, env.margin_ratio⟩

/-- `ExchangeClient.place_order(side, price, quantity, is_reduce_only,
position_side, order_type)` (`exchange_client.py` lines 135-202): rounds
the price to the price precision and the quantity to the amount
precision, floors the quantity at the minimum order amount, then issues a
market or limit `create_order` call; a limit order without a price is
rejected locally (returns `None` without a call).  The returned `Bool` is
the truthiness of the result (`None` on any caught exchange error). -/
def place_order (env : Env) (side : Side) (price : Option ℚ) (quantity : ℚ)
    (is_reduce_only : Bool) (position_side : PositionSide) (market : Bool) :
    List Action × Bool :=
  let price := price.map (fun p => pyRound p env.price_precision)
  let quantity := max (pyRound quantity env.amount_precision) env.min_order_amount
  if market then
    ([.place side none quantity is_reduce_only position_side true], env.placeOk)
  else
    match price with
    | none => ([], false)
    | some p => ([.place side (some p) quantity is_reduce_only position_side false], env.placeOk)

/-- `ExchangeClient.cancel_order(order_id)` (lines 126-133): on any
`ccxt.BaseError` from the underlying call it logs `撤单失败` and
**re-raises** the error to the caller (`raise e`). -/
def cancel_order (outcome : CancelOutcome) : Except CancelOutcome Unit :=
  match outcome with
  | .ok => .ok ()
  | .orderNotFound => .error .orderNotFound
  | .otherError => .error .otherError

/-- The cancellation filter of `GridStrategy.cancel_orders_for_side`:
non-reduce-only entry orders and reduce-only take-profit orders of the
given strategy side. -/
def cancelMatches (position_side : StratSide) (o : OpenOrder) : Bool :=
  match position_side with
  | .long =>
      (!o.reduceOnly && decide (o.side = Side.buy) &&
        decide (o.positionSide = PositionSide.LONG)) ||
      (o.reduceOnly && decide (o.side = Side.sell) &&
        decide (o.positionSide = PositionSide.LONG))
  | .short =>
      (!o.reduceOnly && decide (o.side = Side.sell) &&
        decide (o.positionSide = PositionSide.SHORT)) ||
      (o.reduceOnly && decide (o.side = Side.buy) &&
        decide (o.positionSide = PositionSide.SHORT))

/-- The `for order in orders` loop inside the `try` block of
`cancel_orders_for_side`: cancels matching orders in sequence and stops
at the first call that raises, reporting the raised error. -/
def cancelLoop (ss : StratSide) (co : ℕ → CancelOutcome) :
    List OpenOrder → List Action × Option CancelOutcome
  | [] => ([], none)
  | o :: rest =>
    if cancelMatches ss o then
      match cancel_order (co o.id) with
      | .ok _ =>
          let r := cancelLoop ss co rest
          (.cancel o.id :: r.1, r.2)
      | .error e => ([.cancel o.id], some e)
    else cancelLoop ss co rest

/-- `GridStrategy.cancel_orders_for_side(position_side)` (lines 359-384):
fetches open orders and cancels the matching ones.  A raised
`ccxt.OrderNotFound` is caught, logged as a warning and answered with an
immediate `check_orders_status()` resync; any other exception is caught
and logged; nothing propagates to the caller. -/
def cancel_orders_for_side (s : GridState) (env : Env) (position_side : StratSide) :
    GridState × List Action :=
  if env.openOrders.length = 0 then (s, [])
  else
    let r := cancelLoop position_side env.cancelOutcome env.openOrders
    match r.2 with
    | some .orderNotFound => (check_orders_status s env.openOrders, r.1 ++ [.resync])
    | _ => (s, r.1)

/-- `GridStrategy.get_base_quantity(position, side)`: fixed
`INITIAL_QUANTITY` (dynamic sizing is disabled). -/
def get_base_quantity (_position : ℚ) (_side : StratSide) : ℚ := INITIAL_QUANTITY

/-- `GridStrategy.get_hedge_adjustment_quantity(side)`: fixed
`INITIAL_QUANTITY` (dynamic sizing is disabled). -/
def get_hedge_adjustment_quantity (_side : StratSide) : ℚ := INITIAL_QUANTITY

/-- `GridStrategy.get_final_quantity(position, side)`: the maximum of the
base and hedge quantities, recorded in the side's
`*_initial_quantity` field. -/
def get_final_quantity (s : GridState) (position : ℚ) (side : StratSide) :
    GridState × ℚ :=
  let final_qty := max (get_base_quantity position side) (get_hedge_adjustment_quantity side)
  match side with
  | .long => ({ s with long_initial_quantity := final_qty }, final_qty)
  | .short => ({ s with short_initial_quantity := final_qty }, final_qty)

/-- `GridStrategy.get_take_profit_quantity(position, side)`: delegates to
`get_final_quantity`. -/
def get_take_profit_quantity (s : GridState) (position : ℚ) (side : StratSide) :
    GridState × ℚ :=
  get_final_quantity s position side

/-- `GridStrategy.update_mid_price(side, price)` (lines 342-357): records
the mid price and the grid boundaries `mid*(1±GRID_SPACING)` rounded to
the price precision. -/
def update_mid_price (s : GridState) (env : Env) (side : StratSide) (price : ℚ) :
    GridState :=
  match side with
  | .long =>
      { s with mid_price_long := price,
               upper_price_long := pyRound (price * (1 + GRID_SPACING)) env.price_precision,
               lower_price_long := pyRound (price * (1 - GRID_SPACING)) env.price_precision }
  | .short =>
      { s with mid_price_short := price,
               upper_price_short := pyRound (price * (1 + GRID_SPACING)) env.price_precision,
               lower_price_short := pyRound (price * (1 - GRID_SPACING)) env.price_precision }

/-- The duplicate-price check at the top of `place_take_profit_order`:
an open order of the same position side, same (unrounded) price, and the
closing direction of that side. -/
def tpDuplicate (side : StratSide) (price : ℚ) (o : OpenOrder) : Bool :=
  decide (o.positionSide = side.toPositionSide) && decide (o.price = price) &&
    decide (o.side = (match side with | .long => Side.sell | .short => Side.buy))

/-- `GridStrategy.place_take_profit_order(side, price, quantity)`
(lines 386-423): skips when an identical-price take-profit order already
rests or when the side has no position; otherwise rounds price/quantity,
floors the quantity and places a reduce-only limit order in the closing
direction. -/
def place_take_profit_order (s : GridState) (env : Env) (side : StratSide)
    (price quantity : ℚ) : List Action :=
  if env.openOrders.any (tpDuplicate side price) then []
  else if side = .long ∧ s.long_position ≤ 0 then []
  else if side = .short ∧ s.short_position ≤ 0 then []
  else
    let price := pyRound price env.price_precision
    let quantity := max (pyRound quantity env.amount_precision) env.min_order_amount
    match side with
    | .long => (place_order env .sell (some price) quantity true .LONG false).1
    | .short => (place_order env .buy (some price) quantity true .SHORT false).1

/-- `GridStrategy.place_long_orders(latest_price)` (lines 525-561):
cancels the long side, then with a position places the take-profit leg
at the upper grid boundary plus a re-entry buy at the lower boundary
(quantity floored by the 5-USDC minimum-notional rule with a 10% buffer);
without a position places a single opening buy one grid spacing below. -/
def place_long_orders (s : GridState) (env : Env) (latest_price : ℚ) :
    GridState × List Action :=
  let r0 := cancel_orders_for_side s env .long
  let s := r0.1
  if s.long_position > 0 then
    let r1 := get_take_profit_quantity s s.long_position .long
    let r2 := get_final_quantity r1.1 r1.1.long_position .long
    let s := r2.1
    let base_quantity := r2.2
    let min_notional : ℚ := 5
    let min_quantity := min_notional / latest_price * (11/10)
    let safe_quantity := max base_quantity min_quantity
    let s := update_mid_price s env .long latest_price
    let tp := place_take_profit_order s env .long s.upper_price_long safe_quantity
    let po := (place_order env .buy (some s.lower_price_long) safe_quantity false .LONG false).1
    (s, r0.2 ++ tp ++ po)
  else
    let base_quantity := INITIAL_QUANTITY
    let min_notional : ℚ := 5
    let min_quantity := min_notional / latest_price * (11/10)
    let safe_quantity := max base_quantity min_quantity
    let buy_price := latest_price * (1 - GRID_SPACING)
    let po := (place_order env .buy (some buy_price) safe_quantity false .LONG false).1
    (s, r0.2 ++ po)

/-- `GridStrategy.place_short_orders(latest_price)` (lines 563-599):
the mirror of `place_long_orders` for the short side: take-profit buy at
the lower boundary, re-entry sell at the upper boundary, or a single
opening sell one grid spacing above. -/
def place_short_orders (s : GridState) (env : Env) (latest_price : ℚ) :
    GridState × List Action :=
  let r0 := cancel_orders_for_side s env .short
  let s := r0.1
  if s.short_position > 0 then
    let r1 := get_take_profit_quantity s s.short_position .short
    let r2 := get_final_quantity r1.1 r1.1.short_position .short
    let s := r2.1
    let base_quantity := r2.2
    let min_notional : ℚ := 5
    let min_quantity := min_notional / latest_price * (11/10)
    let safe_quantity := max base_quantity min_quantity
    let s := update_mid_price s env .short latest_price
    let tp := place_take_profit_order s env .short s.lower_price_short safe_quantity
    let po := (place_order env .sell (some s.upper_price_short) safe_quantity false .SHORT false).1
    (s, r0.2 ++ tp ++ po)
  else
    let base_quantity := INITIAL_QUANTITY
    let min_notional : ℚ := 5
    let min_quantity := min_notional / latest_price * (11/10)
    let safe_quantity := max base_quantity min_quantity
    let sell_price := latest_price * (1 + GRID_SPACING)
    let po := (place_order env .sell (some sell_price) safe_quantity false .SHORT false).1
    (s, r0.2 ++ po)

/-- `GridStrategy.initialize_long_orders()` (lines 428-449): under the
`ORDER_FIRST_TIME` cooldown it does nothing; otherwise cancels the long
side and places an opening buy of `INITIAL_QUANTITY` at the best bid,
recording the order time. -/
def initialize_long_orders (s : GridState) (env : Env) : GridState × List Action :=
  if env.now - s.last_long_order_time < ORDER_FIRST_TIME then (s, [])
  else
    let r0 := cancel_orders_for_side s env .long
    let po := (place_order env .buy (some r0.1.best_bid_price) INITIAL_QUANTITY false .LONG false).1
    ({ r0.1 with last_long_order_time := env.now }, r0.2 ++ po)

/-- `GridStrategy.initialize_short_orders()` (lines 451-472): the mirror
of `initialize_long_orders` with an opening sell at the best ask. -/
def initialize_short_orders (s : GridState) (env : Env) : GridState × List Action :=
  if env.now - s.last_short_order_time < ORDER_FIRST_TIME then (s, [])
  else
    let r0 := cancel_orders_for_side s env .short
    let po := (place_order env .sell (some r0.1.best_ask_price) INITIAL_QUANTITY false .SHORT false).1
    ({ r0.1 with last_short_order_time := env.now }, r0.2 ++ po)

/-- `GridStrategy.initialize_hedge_orders()` (lines 474-523): when both
per-side `ORDER_FIRST_TIME` cooldowns have elapsed, cancels both sides,
waits the settle delay and places the paired opening buy/sell of
`INITIAL_QUANTITY`; the `Bool` reports whether both placements returned
an order. -/
def initialize_hedge_orders (s : GridState) (env : Env) :
    GridState × List Action × Bool :=
  let long_can_init := ORDER_FIRST_TIME ≤ env.now - s.last_long_order_time
  let short_can_init := ORDER_FIRST_TIME ≤ env.now - s.last_short_order_time
  if ¬ (long_can_init ∧ short_can_init) then (s, [], false)
  else
    let r1 := cancel_orders_for_side s env .long
    let r2 := cancel_orders_for_side r1.1 env .short
    let s := r2.1
    let lo := place_order env .buy (some s.best_bid_price) INITIAL_QUANTITY false .LONG false
    let so := place_order env .sell (some s.best_ask_price) INITIAL_QUANTITY false .SHORT false
    let s := { s with last_long_order_time := env.now, last_short_order_time := env.now }
    (s, r1.2 ++ r2.2 ++ lo.1 ++ so.1, lo.2 && so.2)

/-- `GridStrategy.check_api_usage()` (lines 149-165): resets the per-minute
call counter once at least 60 seconds have elapsed (the rate statistics
are log-only). -/
def check_api_usage (s : GridState) (env : Env) : GridState :=
  if 60 ≤ env.now - s.api_calls_start_time then
    { s with api_calls_count := 0, api_calls_start_time := env.now }
  else s

/-- `GridStrategy.should_sync_orders()` (lines 167-193): picks the fast or
standard cooldown depending on recent price volatility and allows a sync
(counting the API call) when the cooldown has elapsed since the last
sync. -/
def should_sync_orders (s : GridState) (env : Env) : GridState × Bool :=
  let s := check_api_usage s env
  let is_fast_market := env.now - s.last_price_change_time ≤ FAST_MARKET_WINDOW
  let cooldown := if is_fast_market then FAST_SYNC_COOLDOWN else ORDERS_SYNC_COOLDOWN
  if cooldown ≤ env.now - s.last_orders_sync_time then
    ({ s with api_calls_count := s.api_calls_count + 1 }, true)
  else (s, false)

/-- The side's last-adjustment entry of the `last_update_times` dict. -/
def get_adjustment_time (s : GridState) (side : StratSide) : ℚ :=
  match side with
  | .long => s.time_long_adjust
  | .short => s.time_short_adjust

/-- Writing the side's last-adjustment entry of `last_update_times`. -/
def set_adjustment_time (s : GridState) (side : StratSide) (t : ℚ) : GridState :=
  match side with
  | .long => { s with time_long_adjust := t }
  | .short => { s with time_short_adjust := t }

/-- `GridStrategy._check_quantity_missing(side)` (lines 866-892): true when
either of the side's two resting aggregates is below 70% of the side's
current target quantity. -/
def check_quantity_missing (s : GridState) (side : StratSide) : Bool :=
  match side with
  | .long =>
      let threshold := s.long_initial_quantity * quantity_threshold_ratio
      decide (s.buy_long_orders < threshold) || decide (s.sell_long_orders < threshold)
  | .short =>
      let threshold := s.short_initial_quantity * quantity_threshold_ratio
      decide (s.sell_short_orders < threshold) || decide (s.buy_short_orders < threshold)

/-- One `valid_orders` entry giving the side a reasonable buy leg. -/
def reasonableBuy (side : StratSide) (expected_buy_price tolerance : ℚ) (o : OpenOrder) :
    Bool :=
  decide (o.positionSide = side.toPositionSide) && decide (o.side = Side.buy) &&
    decide (|o.price - expected_buy_price| / expected_buy_price ≤ tolerance)

/-- One `valid_orders` entry giving the side a reasonable sell leg. -/
def reasonableSell (side : StratSide) (expected_sell_price tolerance : ℚ) (o : OpenOrder) :
    Bool :=
  decide (o.positionSide = side.toPositionSide) && decide (o.side = Side.sell) &&
    decide (|o.price - expected_sell_price| / expected_sell_price ≤ tolerance)

/-- `GridStrategy._check_order_prices_reasonable(side, current_price)`
(lines 894-933): with no recorded `valid_orders` the prices are not
reasonable; otherwise the side needs both a buy and a sell among the
recorded orders within one grid-spacing of the ideal re-entry and
take-profit prices. -/
def check_order_prices_reasonable (s : GridState) (side : StratSide)
    (current_price : ℚ) : Bool :=
  if s.valid_orders.isEmpty then false
  else
    let expected_buy_price := current_price * (1 - GRID_SPACING)
    let expected_sell_price := current_price * (1 + GRID_SPACING)
    let price_tolerance := GRID_SPACING * 1
    (s.valid_orders.any (reasonableBuy side expected_buy_price price_tolerance)) &&
      (s.valid_orders.any (reasonableSell side expected_sell_price price_tolerance))

/-- `GridStrategy._is_emergency_missing_orders(side)` (lines 935-948):
true when the side holds a position but its take-profit aggregate
(sell-long resp. buy-short) is zero. -/
def is_emergency_missing_orders (s : GridState) (side : StratSide) : Bool :=
  match side with
  | .long => decide (s.long_position > 0) && decide (s.sell_long_orders = 0)
  | .short => decide (s.short_position > 0) && decide (s.buy_short_orders = 0)

/-- `GridStrategy.need_order_update(side, current_price)` (lines 821-864):
an emergency (position with zero resting take-profit quantity) forces an
update regardless of the cooldown; otherwise inside the 15-second
`MIN_ORDER_ADJUSTMENT_INTERVAL` no update happens, and past it an update
is needed when quantities are missing or prices unreasonable.  When an
update is reported the side's last-adjustment timestamp is recorded. -/
def need_order_update (s : GridState) (env : Env) (side : StratSide)
    (current_price : ℚ) : GridState × Bool :=
  let quantity_missing := check_quantity_missing s side
  let price_reasonable := check_order_prices_reasonable s side current_price
  if is_emergency_missing_orders s side then
    (set_adjustment_time s side env.now, true)
  else
    if env.now - get_adjustment_time s side < MIN_ORDER_ADJUSTMENT_INTERVAL then
      (s, false)
    else
      let need_update := quantity_missing || !price_reasonable
      if need_update then (set_adjustment_time s side env.now, true)
      else (s, false)

/-- `GridStrategy._perform_risk_checks()` (lines 1170-1253): refreshes the
risk caches (their contents are the `Env` fields), then for each side
with a nonzero position asks `should_reduce_position` and, on a
HIGH/MEDIUM decision, places the reduce-only market order for
`position * suggested_ratio` (rounded, floored at the exchange minimum).
Unlike `adjust_grid_strategy`, it never aborts the cycle. -/
def perform_risk_checks (s : GridState) (env : Env) : List Action :=
  let long_actions :=
    if s.long_position > 0 then
      let d := should_reduce_position (riskLong env) (s.long_position * s.latest_price)
      if d.should_reduce = true ∧ (d.urgency = .HIGH ∨ d.urgency = .MEDIUM) then
        let reduce_qty := max (pyRound (s.long_position * d.suggested_ratio)
          env.amount_precision) env.min_order_amount
        (place_order env .sell none reduce_qty true .LONG true).1
      else []
    else []
  let short_actions :=
    if s.short_position > 0 then
      let d := should_reduce_position (riskShort env) (s.short_position * s.latest_price)
      if d.should_reduce = true ∧ (d.urgency = .HIGH ∨ d.urgency = .MEDIUM) then
        let reduce_qty := max (pyRound (s.short_position * d.suggested_ratio)
          env.amount_precision) env.min_order_amount
        (place_order env .buy none reduce_qty true .SHORT true).1
      else []
    else []
  long_actions ++ short_actions

/-- The long-side block of step 4 of `adjust_grid_strategy`
(lines 726-750).  The returned `Bool` is `true` when the Python code hit
a `return` statement (the post-hedge-init grace period), aborting the
rest of the cycle. -/
def adjust_long_branch (s : GridState) (env : Env) : GridState × List Action × Bool :=
  if s.long_position = 0 then
    if s.hedge_init_completed = true ∧ env.now - s.last_hedge_init_time < 15 then
      (s, [], true)
    else
      let r := initialize_long_orders s env
      (r.1, r.2, false)
  else
    let orders_valid :=
      !(decide (0 < s.buy_long_orders ∧ s.buy_long_orders ≤ s.long_initial_quantity)) ||
      !(decide (0 < s.sell_long_orders ∧ s.sell_long_orders ≤ s.long_initial_quantity))
    if orders_valid then
      let rs := should_sync_orders s env
      let s1 := rs.1
      let synced :=
        if rs.2 then
          let s2 := check_orders_status s1 env.openOrders
          let s2 := { s2 with last_orders_sync_time := env.now }
          let ov :=
            !(decide (0 < s2.buy_long_orders ∧ s2.buy_long_orders ≤ s2.long_initial_quantity)) ||
            !(decide (0 < s2.sell_long_orders ∧ s2.sell_long_orders ≤ s2.long_initial_quantity))
          (s2, ov)
        else (s1, orders_valid)
      if synced.2 then
        let r := place_long_orders synced.1 env synced.1.latest_price
        (r.1, r.2, false)
      else (synced.1, [], false)
    else (s, [], false)

/-- The short-side block of step 4 of `adjust_grid_strategy`
(lines 752-775), mirror of `adjust_long_branch`. -/
def adjust_short_branch (s : GridState) (env : Env) : GridState × List Action × Bool :=
  if s.short_position = 0 then
    if s.hedge_init_completed = true ∧ env.now - s.last_hedge_init_time < 15 then
      (s, [], true)
    else
      let r := initialize_short_orders s env
      (r.1, r.2, false)
  else
    let orders_valid :=
      !(decide (0 < s.sell_short_orders ∧ s.sell_short_orders ≤ s.short_initial_quantity)) ||
      !(decide (0 < s.buy_short_orders ∧ s.buy_short_orders ≤ s.short_initial_quantity))
    if orders_valid then
      let rs := should_sync_orders s env
      let s1 := rs.1
      let synced :=
        if rs.2 then
          let s2 := check_orders_status s1 env.openOrders
          let s2 := { s2 with last_orders_sync_time := env.now }
          let ov :=
            !(decide (0 < s2.sell_short_orders ∧ s2.sell_short_orders ≤ s2.short_initial_quantity)) ||
            !(decide (0 < s2.buy_short_orders ∧ s2.buy_short_orders ≤ s2.short_initial_quantity))
          (s2, ov)
        else (s1, orders_valid)
      if synced.2 then
        let r := place_short_orders synced.1 env synced.1.latest_price
        (r.1, r.2, false)
      else (synced.1, [], false)
    else (s, [], false)

/-- Step 4 of `adjust_grid_strategy` (lines 700-775): hedge-pair
initialization when both sides are flat and not yet hedge-initialized
(gated by the 5-second attempt interval; success marks completion and
returns, failure falls through), then the per-side long and short
blocks, the long block's `return` aborting the short block. -/
def adjust_grid_tail (s : GridState) (env : Env) : GridState × List Action :=
  if ENABLE_HEDGE_INIT = true ∧ s.long_position = 0 ∧ s.short_position = 0 ∧
     s.hedge_init_completed = false then
    if 5 ≤ env.now - s.last_hedge_init_time then
      let rh := initialize_hedge_orders s env
      let s1 := { rh.1 with last_hedge_init_time := env.now }
      if rh.2.2 then ({ s1 with hedge_init_completed := true }, rh.2.1)
      else
        let rl := adjust_long_branch s1 env
        if rl.2.2 then (rl.1, rh.2.1 ++ rl.2.1)
        else
          let rsh := adjust_short_branch rl.1 env
          (rsh.1, rh.2.1 ++ rl.2.1 ++ rsh.2.1)
    else (s, [])
  else
    let rl := adjust_long_branch s env
    if rl.2.2 then (rl.1, rl.2.1)
    else
      let rsh := adjust_short_branch rl.1 env
      (rsh.1, rl.2.1 ++ rsh.2.1)

/-- `GridStrategy.adjust_grid_strategy()` (lines 611-775): the tick-driven
evaluation cycle.  Steps 1-3: refresh risk caches (carried by `Env`),
then for the long and then the short side, on a HIGH/MEDIUM
`should_reduce_position` decision place the reduce-only market order for
`position * suggested_ratio` and **return immediately**, skipping all
grid logic for this cycle.  Step 4 (`adjust_grid_tail`) runs only when
neither side triggered. -/
def adjust_grid_strategy (s : GridState) (env : Env) : GridState × List Action :=
  let dLong := should_reduce_position (riskLong env) (s.long_position * s.latest_price)
  if s.long_position > 0 ∧ dLong.should_reduce = true ∧
     (dLong.urgency = .HIGH ∨ dLong.urgency = .MEDIUM) then
    let reduce_qty := max (pyRound (s.long_position * dLong.suggested_ratio)
      env.amount_precision) env.min_order_amount
    (s, (place_order env .sell none reduce_qty true .LONG true).1)
  else
    let dShort := should_reduce_position (riskShort env) (s.short_position * s.latest_price)
    if s.short_position > 0 ∧ dShort.should_reduce = true ∧
       (dShort.urgency = .HIGH ∨ dShort.urgency = .MEDIUM) then
      let reduce_qty := max (pyRound (s.short_position * dShort.suggested_ratio)
        env.amount_precision) env.min_order_amount
      (s, (place_order env .buy none reduce_qty true .SHORT true).1)
    else
      adjust_grid_tail s env

/-- The shared no-position initialization tail of
`_handle_immediate_rebalance` (lines 1011-1022): per-side initialization
attempts followed by recording the grid price and the handler
timestamp. -/
def rebalance_init_both (s : GridState) (env : Env) : GridState × List Action :=
  let r1 := if s.long_position = 0 then initialize_long_orders s env else (s, [])
  let r2 := if r1.1.short_position = 0 then initialize_short_orders r1.1 env else (r1.1, [])
  ({ r2.1 with last_grid_update_price := r2.1.latest_price, time_rebalance := env.now },
    r1.2 ++ r2.2)

/-- `GridStrategy._handle_immediate_rebalance()` (lines 977-1051): the
high-priority event handler.  Discards the pending flag, resyncs the
ledger from `fetch_open_orders`, runs `_perform_risk_checks` (which
places reduce-only orders but does **not** abort the cycle), then either
the no-position initialization path (hedge-pair first, per-side second)
or the per-side adjustment path driven by `need_order_update`. -/
def handle_immediate_rebalance (s : GridState) (env : Env) : GridState × List Action :=
  let s := { s with pending_rebalance := false }
  let s := check_orders_status s env.openOrders
  let ra := perform_risk_checks s env
  if s.long_position = 0 ∧ s.short_position = 0 then
    if 5 ≤ env.now - s.last_hedge_init_time then
      let rh := initialize_hedge_orders s env
      let s1 := { rh.1 with last_hedge_init_time := env.now }
      if rh.2.2 then
        ({ s1 with hedge_init_completed := true,
                   last_grid_update_price := s1.latest_price,
                   time_rebalance := env.now }, ra ++ rh.2.1)
      else
        let ri := rebalance_init_both s1 env
        (ri.1, ra ++ rh.2.1 ++ ri.2)
    else
      let ri := rebalance_init_both s env
      (ri.1, ra ++ ri.2)
  else
    let rl :=
      if s.long_position > 0 then
        let rn := need_order_update s env .long s.latest_price
        if rn.2 then
          let rp := place_long_orders rn.1 env rn.1.latest_price
          ({ rp.1 with last_grid_update_price := rp.1.latest_price }, rp.2)
        else (rn.1, [])
      else if s.long_position = 0 then initialize_long_orders s env
      else (s, [])
    let rs :=
      if rl.1.short_position > 0 then
        let rn := need_order_update rl.1 env .short rl.1.latest_price
        if rn.2 then
          let rp := place_short_orders rn.1 env rn.1.latest_price
          ({ rp.1 with last_grid_update_price := rp.1.latest_price }, rp.2)
        else (rn.1, [])
      else if rl.1.short_position = 0 then initialize_short_orders rl.1 env
      else (rl.1, [])
    ({ rs.1 with time_rebalance := env.now }, ra ++ rl.2 ++ rs.2)

/-- `GridStrategy.has_price_drift_exceeded_threshold()` (lines 803-819):
first run initializes the reference price and reports a drift; otherwise
compares the relative price change with `GRID_UPDATE_THRESHOLD`. -/
def has_price_drift_exceeded_threshold (s : GridState) : GridState × Bool :=
  if s.last_grid_update_price ≤ 0 then
    ({ s with last_grid_update_price := s.latest_price }, true)
  else
    (s, decide (|s.latest_price - s.last_grid_update_price| / s.last_grid_update_price >
      GRID_UPDATE_THRESHOLD))

/-- The shared no-position initialization tail of
`_handle_price_drift_check` (lines 1090-1101). -/
def drift_init_both (s : GridState) (env : Env) : GridState × List Action :=
  let r1 := if s.long_position = 0 then initialize_long_orders s env else (s, [])
  let r2 := if r1.1.short_position = 0 then initialize_short_orders r1.1 env else (r1.1, [])
  ({ r2.1 with last_grid_update_price := r2.1.latest_price, time_drift := env.now },
    r1.2 ++ r2.2)

/-- `GridStrategy._handle_price_drift_check()` (lines 1053-1146): the
low-priority event handler.  Discards the pending flag; under the
10-second `MIN_UPDATE_INTERVAL` it returns; otherwise runs the risk
checks, the no-position initialization path, the drift threshold gate,
and finally the per-side `need_order_update`-driven re-quote or
re-initialization. -/
def handle_price_drift_check (s : GridState) (env : Env) : GridState × List Action :=
  let s := { s with pending_drift := false }
  if env.now - s.time_drift < MIN_UPDATE_INTERVAL then (s, [])
  else
    let ra := perform_risk_checks s env
    if s.long_position = 0 ∧ s.short_position = 0 then
      if 5 ≤ env.now - s.last_hedge_init_time then
        let rh := initialize_hedge_orders s env
        let s1 := { rh.1 with last_hedge_init_time := env.now }
        if rh.2.2 then
          ({ s1 with hedge_init_completed := true,
                     last_grid_update_price := s1.latest_price,
                     time_drift := env.now }, ra ++ rh.2.1)
        else
          let ri := drift_init_both s1 env
          (ri.1, ra ++ rh.2.1 ++ ri.2)
      else
        let ri := drift_init_both s env
        (ri.1, ra ++ ri.2)
    else
      let rd := has_price_drift_exceeded_threshold s
      if rd.2 = false then (rd.1, ra)
      else
        let s := rd.1
        let r1 :=
          if s.long_position > 0 then
            let rn := need_order_update s env .long s.latest_price
            (rn.1, rn.2, false)
          else if s.long_position = 0 then (s, false, true)
          else (s, false, false)
        let r2 :=
          if r1.1.short_position > 0 then
            let rn := need_order_update r1.1 env .short r1.1.latest_price
            (rn.1, rn.2, false)
          else if r1.1.short_position = 0 then (r1.1, false, true)
          else (r1.1, false, false)
        let s2 := r2.1
        let rl :=
          if r1.2.1 then
            let rp := place_long_orders s2 env s2.latest_price
            ({ rp.1 with last_grid_update_price := rp.1.latest_price }, rp.2)
          else if r1.2.2 then initialize_long_orders s2 env
          else (s2, [])
        let rs :=
          if r2.2.1 then
            let rp := place_short_orders rl.1 env rl.1.latest_price
            ({ rp.1 with last_grid_update_price := rp.1.latest_price }, rp.2)
          else if r2.2.2 then initialize_short_orders rl.1 env
          else (rl.1, [])
        ({ rs.1 with time_drift := env.now }, ra ++ rl.2 ++ rs.2)

/-- Which handler an iteration of the scheduler loop started. -/
structure IterationTrace where
  ranRebalance : Bool
  ranDrift : Bool
deriving DecidableEq

/-- One iteration of `GridStrategy.main_strategy_loop()` (lines 952-975):
with an empty pending set nothing runs; with `rebalance_immediately`
pending the rebalance handler runs to completion and the iteration ends
(`continue`) without considering the drift check; otherwise with
`check_price_drift` pending the drift handler runs. -/
def main_loop_iteration (s : GridState) (env : Env) :
    GridState × List Action × IterationTrace :=
  if s.pending_rebalance = false ∧ s.pending_drift = false then (s, [], ⟨false, false⟩)
  else if s.pending_rebalance = true then
    let r := handle_immediate_rebalance s env
    (r.1, r.2, ⟨true, false⟩)
  else if s.pending_drift = true then
    let r := handle_price_drift_check s env
    (r.1, r.2, ⟨false, true⟩)
  else (s, [], ⟨false, false⟩)

/-! Concrete environments and states used by the evaluation theorems. -/

/-- A quiet environment: no open orders, all exchange calls succeed, no
unrealized losses, no margin usage; DOGE-like instrument metadata. -/
def envA : Env :=
  { now := 1000, openOrders := [], cancelOutcome := fun _ => .ok, placeOk := true,
    long_pnl := 0, long_pct := 0, short_pnl := 0, short_pct := 0, margin_ratio := 0,
    price_precision := 2, amount_precision := 0, min_order_amount := 1 }

/-- `envA` with a large unrealized long-side loss that trips the
stop-loss rule. -/
def envB : Env := { envA with long_pnl := -100, long_pct := -50 }

/-- A state holding 10 long and 1 short contracts at price 10, used to
drive the event-handler evaluation. -/
def c2state : GridState :=
  { long_position := 10, short_position := 1, latest_price := 10,
    best_bid_price := 10, best_ask_price := 10 }

/-- An open non-reduce-only long entry order, used to drive the
cancellation path. -/
def c7order : OpenOrder := ⟨1, Side.buy, PositionSide.LONG, 50, 1, false⟩

/-- `envA` with one open long order whose cancellation reports
`OrderNotFound`. -/
def c7env : Env :=
  { envA with openOrders := [c7order], cancelOutcome := fun _ => .orderNotFound }

/-! Ledger invariants and evaluations. -/

/-- Well-formedness of an order event: the cumulative filled quantity is
between `0` and the order quantity. -/
def WellFormedEvent (e : OrderEvent) : Prop := 0 ≤ e.z ∧ e.z ≤ e.q

/-- All four resting-order aggregates of the ledger are nonnegative. -/
def AggregatesNonneg (s : GridState) : Prop :=
  0 ≤ s.buy_long_orders ∧ 0 ≤ s.sell_long_orders ∧
  0 ≤ s.buy_short_orders ∧ 0 ≤ s.sell_short_orders

lemma handle_order_update_nonneg (s : GridState) (e : OrderEvent)
    (hs : AggregatesNonneg s) (he : WellFormedEvent e) :
    AggregatesNonneg (handle_order_update s e) := by
  obtain ⟨h1, h2, h3, h4⟩ := hs
  obtain ⟨hz, hq⟩ := he
  obtain ⟨S, ps, X, q, z⟩ := e
  simp only [WellFormedEvent] at hz hq
  cases X <;> cases S <;> cases ps <;>
    · refine ⟨?_, ?_, ?_, ?_⟩ <;>
      simp only [handle_order_update, AggregatesNonneg] <;>
      first
        | assumption
        | exact le_max_left 0 _
        | linarith

lemma applyEvents_nonneg (s : GridState) (es : List OrderEvent)
    (he : ∀ e ∈ es, WellFormedEvent e) (hs : AggregatesNonneg s) :
    AggregatesNonneg (applyEvents s es) := by
  induction es generalizing s with
  | nil => exact hs
  | cons e rest ih =>
      exact ih (handle_order_update s e)
        (fun x hx => he x (List.mem_cons_of_mem e hx))
        (handle_order_update_nonneg s e hs (he e (List.mem_cons_self e rest)))

/-- C3: for every finite sequence of order-lifecycle events (any status,
side and position side, with `0 ≤ z ≤ q`) applied by
`handle_order_update` from a state whose four resting aggregates are
nonnegative, every aggregate stays nonnegative after every prefix of the
sequence.  The embedded `handle_order_update` is a total function, so no
event application can raise for a would-be-negative result: subtractions
are clamped with `max 0`. -/
theorem c3_clamping_law (s : GridState) (es : List OrderEvent)
    (hs : AggregatesNonneg s) (he : ∀ e ∈ es, WellFormedEvent e) :
    ∀ n : ℕ, AggregatesNonneg (applyEvents s (es.take n)) := by
  intro n
  exact applyEvents_nonneg s (es.take n)
    (fun e hmem => he e (List.take_subset n es hmem)) hs

/-- C3 witness: the clamping law evaluated on a concrete state and a
concrete event sequence that over-cancels and over-fills. -/
theorem c3_clamping_law_witness :
    AggregatesNonneg (applyEvents ({ buy_long_orders := 3 } : GridState)
      (([⟨Side.buy, PositionSide.LONG, OrderStatus.FILLED, 10, 10⟩,
         ⟨Side.sell, PositionSide.SHORT, OrderStatus.CANCELED, 7, 0⟩] : List OrderEvent).take 2)) :=
  c3_clamping_law { buy_long_orders := 3 } _
    (by refine ⟨?_, ?_, ?_, ?_⟩ <;> norm_num)
    (by
      intro e he
      rcases List.mem_cons.mp he with rfl | he
      · exact ⟨by norm_num, by norm_num⟩
      · rcases List.mem_cons.mp he with rfl | he
        · exact ⟨by norm_num, by norm_num⟩
        · cases he)
    2

/-- C1: duplicate-`FILLED` evaluation at the failing input.  The ledger
keeps no per-order cumulative-filled record, so re-applying the same
`FILLED` event (same order, same cumulative filled value `z = 10`)
increments the long position a second time: one application yields
`long_position = 10`, the second yields `20` and changes the state again,
refuting the idempotence the specification requires. -/
theorem c1_duplicate_fill_eval :
    (handle_order_update { buy_long_orders := 10 }
        ⟨Side.buy, PositionSide.LONG, OrderStatus.FILLED, 10, 10⟩).long_position = 10 ∧
    (handle_order_update
        (handle_order_update { buy_long_orders := 10 }
          ⟨Side.buy, PositionSide.LONG, OrderStatus.FILLED, 10, 10⟩)
        ⟨Side.buy, PositionSide.LONG, OrderStatus.FILLED, 10, 10⟩).long_position = 20 ∧
    (handle_order_update
        (handle_order_update { buy_long_orders := 10 }
          ⟨Side.buy, PositionSide.LONG, OrderStatus.FILLED, 10, 10⟩)
        ⟨Side.buy, PositionSide.LONG, OrderStatus.FILLED, 10, 10⟩).long_position ≠
      (handle_order_update { buy_long_orders := 10 }
        ⟨Side.buy, PositionSide.LONG, OrderStatus.FILLED, 10, 10⟩).long_position := by
  refine ⟨?_, ?_, ?_⟩ <;> norm_num [handle_order_update]

/-- C9 counterexample: `handle_order_update` updates position sizes (a
`SELL`/`LONG`/`FILLED` event takes the positions from `(5, 0)` to
`(0, 0)`) yet leaves `hedge_init_completed` at `true`, so the claim that
every position-updating operation resets the flag on a nonzero-to-zero
transition is false on the order-event path. -/
theorem c9_counterexample :
    (handle_order_update { long_position := 5, hedge_init_completed := true }
        ⟨Side.sell, PositionSide.LONG, OrderStatus.FILLED, 5, 5⟩).long_position = 0 ∧
    (handle_order_update { long_position := 5, hedge_init_completed := true }
        ⟨Side.sell, PositionSide.LONG, OrderStatus.FILLED, 5, 5⟩).short_position = 0 ∧
    (handle_order_update { long_position := 5, hedge_init_completed := true }
        ⟨Side.sell, PositionSide.LONG, OrderStatus.FILLED, 5, 5⟩).hedge_init_completed = true := by
  refine ⟨?_, ?_, ?_⟩ <;> norm_num [handle_order_update]

/-- C9 (amended): only the snapshot path resets the hedge-init flag.
`update_positions` leaves `hedge_init_completed = false` whenever the new
positions are both zero and the old positions were not both zero, while
`handle_order_update` never changes the flag at all. -/
theorem c9_update_positions_reset :
    (∀ (s : GridState) (lp sp : ℚ), lp = 0 → sp = 0 →
        (s.long_position ≠ 0 ∨ s.short_position ≠ 0) →
        (update_positions s lp sp).hedge_init_completed = false) ∧
    (∀ (s : GridState) (e : OrderEvent),
        (handle_order_update s e).hedge_init_completed = s.hedge_init_completed) := by
  constructor
  · intro s lp sp hlp hsp hnz
    simp only [update_positions]
    split_ifs with hc
    · rfl
    · by_cases hb : s.hedge_init_completed = true
      · exact absurd ⟨hb, ⟨hlp, hsp⟩, hnz⟩ hc
      · simpa using hb
  · intro s e
    obtain ⟨S, ps, X, q, z⟩ := e
    cases X <;> cases S <;> cases ps <;> rfl

/-- C9 (amended) witness: the snapshot path resets the flag on a concrete
nonzero-to-zero transition. -/
theorem c9_update_positions_reset_witness :
    (update_positions ({ long_position := 5, hedge_init_completed := true } : GridState)
        0 0).hedge_init_completed = false :=
  c9_update_positions_reset.1
    ({ long_position := 5, hedge_init_completed := true } : GridState)
    0 0 rfl rfl (Or.inl (by norm_num))

/-- C6: the resting-order aggregates produced by `check_orders_status`
are a function of the open-orders snapshot alone — for any two prior
ledger states, however drifted, and the same snapshot, all four resulting
aggregates agree: the snapshot overwrites the aggregates rather than
adjusting them. -/
theorem c6_snapshot_round_trip (s1 s2 : GridState) (orders : List OpenOrder) :
    (check_orders_status s1 orders).buy_long_orders =
        (check_orders_status s2 orders).buy_long_orders ∧
    (check_orders_status s1 orders).sell_long_orders =
        (check_orders_status s2 orders).sell_long_orders ∧
    (check_orders_status s1 orders).buy_short_orders =
        (check_orders_status s2 orders).buy_short_orders ∧
    (check_orders_status s1 orders).sell_short_orders =
        (check_orders_status s2 orders).sell_short_orders := by
  refine ⟨?_, ?_, ?_, ?_⟩ <;> simp [check_orders_status]

/-- Snapshot category predicate: an open order counted towards
`buy_long`. -/
def isOpenBuyLong (o : OpenOrder) : Bool :=
  decide (0 < o.remaining) && decide (o.side = Side.buy) &&
    decide (o.positionSide = PositionSide.LONG)

/-- Snapshot category predicate: an open order counted towards
`sell_long`. -/
def isOpenSellLong (o : OpenOrder) : Bool :=
  decide (0 < o.remaining) && decide (o.side = Side.sell) &&
    decide (o.positionSide = PositionSide.LONG)

/-- Snapshot category predicate: an open order counted towards
`buy_short`. -/
def isOpenBuyShort (o : OpenOrder) : Bool :=
  decide (0 < o.remaining) && decide (o.side = Side.buy) &&
    decide (o.positionSide = PositionSide.SHORT)

/-- Snapshot category predicate: an open order counted towards
`sell_short`. -/
def isOpenSellShort (o : OpenOrder) : Bool :=
  decide (0 < o.remaining) && decide (o.side = Side.sell) &&
    decide (o.positionSide = PositionSide.SHORT)

lemma snapshotStep_counts (p : OrderCounts × List OpenOrder) (o : OpenOrder) :
    ((snapshotStep p o).1.buy_long =
        p.1.buy_long + (if isOpenBuyLong o then 1 else 0)) ∧
    ((snapshotStep p o).1.sell_long =
        p.1.sell_long + (if isOpenSellLong o then 1 else 0)) ∧
    ((snapshotStep p o).1.buy_short =
        p.1.buy_short + (if isOpenBuyShort o then 1 else 0)) ∧
    ((snapshotStep p o).1.sell_short =
        p.1.sell_short + (if isOpenSellShort o then 1 else 0)) := by
  obtain ⟨i, side, ps, rem, price, ro⟩ := o
  by_cases hr : rem ≤ 0
  · have hlt : ¬ (0 < rem) := not_lt.mpr hr
    refine ⟨?_, ?_, ?_, ?_⟩ <;>
      simp [snapshotStep, isOpenBuyLong, isOpenSellLong, isOpenBuyShort,
        isOpenSellShort, hr, hlt]
  · have hlt : 0 < rem := not_le.mp hr
    cases side <;> cases ps <;>
      refine ⟨?_, ?_, ?_, ?_⟩ <;>
        simp [snapshotStep, isOpenBuyLong, isOpenSellLong, isOpenBuyShort,
          isOpenSellShort, hr, hlt]

lemma snapshot_fold_counts (orders : List OpenOrder) (p : OrderCounts × List OpenOrder) :
    ((orders.foldl snapshotStep p).1.buy_long =
        p.1.buy_long + orders.countP isOpenBuyLong) ∧
    ((orders.foldl snapshotStep p).1.sell_long =
        p.1.sell_long + orders.countP isOpenSellLong) ∧
    ((orders.foldl snapshotStep p).1.buy_short =
        p.1.buy_short + orders.countP isOpenBuyShort) ∧
    ((orders.foldl snapshotStep p).1.sell_short =
        p.1.sell_short + orders.countP isOpenSellShort) := by
  induction orders generalizing p with
  | nil => simp
  | cons o rest ih =>
    obtain ⟨sA, sB, sC, sD⟩ := snapshotStep_counts p o
    obtain ⟨hA, hB, hC, hD⟩ := ih (snapshotStep p o)
    refine ⟨?_, ?_, ?_, ?_⟩
    · rw [List.foldl_cons, List.countP_cons, hA, sA]; omega
    · rw [List.foldl_cons, List.countP_cons, hB, sB]; omega
    · rw [List.foldl_cons, List.countP_cons, hC, sC]; omega
    · rw [List.foldl_cons, List.countP_cons, hD, sD]; omega

/-- C10: after `check_orders_status` processes an open-orders snapshot,
each resting-order aggregate equals the number of open orders with
positive remaining quantity in that (side, position-side) category
multiplied by the fixed `INITIAL_QUANTITY` — orders are counted, their
remaining quantities are not summed — so every post-snapshot aggregate is
a natural-number multiple of `INITIAL_QUANTITY`. -/
theorem c10_snapshot_aggregates (s : GridState) (orders : List OpenOrder) :
    ((check_orders_status s orders).buy_long_orders =
        (orders.countP isOpenBuyLong : ℚ) * INITIAL_QUANTITY) ∧
    ((check_orders_status s orders).sell_long_orders =
        (orders.countP isOpenSellLong : ℚ) * INITIAL_QUANTITY) ∧
    ((check_orders_status s orders).buy_short_orders =
        (orders.countP isOpenBuyShort : ℚ) * INITIAL_QUANTITY) ∧
    ((check_orders_status s orders).sell_short_orders =
        (orders.countP isOpenSellShort : ℚ) * INITIAL_QUANTITY) ∧
    (∃ n : ℕ, (check_orders_status s orders).buy_long_orders = (n : ℚ) * INITIAL_QUANTITY) ∧
    (∃ n : ℕ, (check_orders_status s orders).sell_long_orders = (n : ℚ) * INITIAL_QUANTITY) ∧
    (∃ n : ℕ, (check_orders_status s orders).buy_short_orders = (n : ℚ) * INITIAL_QUANTITY) ∧
    (∃ n : ℕ, (check_orders_status s orders).sell_short_orders = (n : ℚ) * INITIAL_QUANTITY) := by
  obtain ⟨hbl, hsl, hbs, hss⟩ := snapshot_fold_counts orders ({}, [])
  have h1 : (check_orders_status s orders).buy_long_orders =
      (orders.countP isOpenBuyLong : ℚ) * INITIAL_QUANTITY := by
    simp [check_orders_status, hbl]
  have h2 : (check_orders_status s orders).sell_long_orders =
      (orders.countP isOpenSellLong : ℚ) * INITIAL_QUANTITY := by
    simp [check_orders_status, hsl]
  have h3 : (check_orders_status s orders).buy_short_orders =
      (orders.countP isOpenBuyShort : ℚ) * INITIAL_QUANTITY := by
    simp [check_orders_status, hbs]
  have h4 : (check_orders_status s orders).sell_short_orders =
      (orders.countP isOpenSellShort : ℚ) * INITIAL_QUANTITY := by
    simp [check_orders_status, hss]
  exact ⟨h1, h2, h3, h4, ⟨_, h1⟩, ⟨_, h2⟩, ⟨_, h3⟩, ⟨_, h4⟩⟩

/-- C5: `should_reduce_position` applies exactly the first matching rule:
stop-loss (loss magnitude above `position_value * stop_loss_ratio`) gives
`(true, HIGH, 0.5)`; otherwise extreme loss (`pnl_percentage < -20`)
gives `(true, HIGH, 0.3)`; otherwise HIGH margin risk gives
`(true, MEDIUM, 0.4)`; otherwise no reduction.  Margin risk is HIGH
exactly when the margin-used ratio exceeds `0.85`, MEDIUM exactly when it
exceeds `0.70` but not `0.85`, and LOW otherwise. -/
theorem c5_risk_decision_rules (r : RiskInputs) (v : ℚ) (hv : 0 ≤ v) :
    (max 0 (-r.unrealized_pnl) > v * stop_loss_ratio →
        should_reduce_position r v = ⟨true, .HIGH, 1/2⟩) ∧
    (¬ max 0 (-r.unrealized_pnl) > v * stop_loss_ratio →
      r.pnl_percentage < -20 →
        should_reduce_position r v = ⟨true, .HIGH, 3/10⟩) ∧
    (¬ max 0 (-r.unrealized_pnl) > v * stop_loss_ratio →
      ¬ r.pnl_percentage < -20 →
      check_margin_risk r.margin_ratio = .HIGH_RISK →
        should_reduce_position r v = ⟨true, .MEDIUM, 2/5⟩) ∧
    (¬ max 0 (-r.unrealized_pnl) > v * stop_loss_ratio →
      ¬ r.pnl_percentage < -20 →
      ¬ check_margin_risk r.margin_ratio = .HIGH_RISK →
        (should_reduce_position r v).should_reduce = false) ∧
    (check_margin_risk r.margin_ratio = .HIGH_RISK ↔ r.margin_ratio > 85/100) ∧
    (check_margin_risk r.margin_ratio = .MEDIUM_RISK ↔
        r.margin_ratio ≤ 85/100 ∧ r.margin_ratio > 7/10) ∧
    (check_margin_risk r.margin_ratio = .LOW_RISK ↔ r.margin_ratio ≤ 7/10) := by
  have hρ : (0:ℚ) ≤ v * stop_loss_ratio := by
    have h0 : (0:ℚ) ≤ stop_loss_ratio := by norm_num [stop_loss_ratio]
    exact mul_nonneg hv h0
  have hiff : max 0 (-r.unrealized_pnl) > v * stop_loss_ratio ↔
      (r.unrealized_pnl < 0 ∧ |r.unrealized_pnl| > v * stop_loss_ratio) := by
    constructor
    · intro h
      have hneg : 0 < -r.unrealized_pnl := by
        by_contra hc
        push_neg at hc
        rw [max_eq_left hc] at h
        linarith
      rw [max_eq_right hneg.le] at h
      refine ⟨by linarith, ?_⟩
      rw [abs_of_neg (by linarith : r.unrealized_pnl < 0)]
      exact h
    · rintro ⟨h1, h2⟩
      rw [abs_of_neg h1] at h2
      rw [max_eq_right (by linarith : (0:ℚ) ≤ -r.unrealized_pnl)]
      exact h2
  refine ⟨?_, ?_, ?_, ?_, ?_, ?_, ?_⟩
  · intro h
    have hc := hiff.mp h
    simp only [should_reduce_position]
    rw [if_pos hc]
  · intro h1 h2
    have hnc : ¬ (r.unrealized_pnl < 0 ∧ |r.unrealized_pnl| > v * stop_loss_ratio) :=
      fun hc => h1 (hiff.mpr hc)
    simp only [should_reduce_position]
    rw [if_neg hnc, if_pos h2]
  · intro h1 h2 h3
    have hnc : ¬ (r.unrealized_pnl < 0 ∧ |r.unrealized_pnl| > v * stop_loss_ratio) :=
      fun hc => h1 (hiff.mpr hc)
    simp only [should_reduce_position]
    rw [if_neg hnc, if_neg h2, if_pos h3]
  · intro h1 h2 h3
    have hnc : ¬ (r.unrealized_pnl < 0 ∧ |r.unrealized_pnl| > v * stop_loss_ratio) :=
      fun hc => h1 (hiff.mpr hc)
    simp only [should_reduce_position]
    rw [if_neg hnc, if_neg h2, if_neg h3]
  · unfold check_margin_risk
    split_ifs with ha hb <;> simp [ha]
  · unfold check_margin_risk
    split_ifs with ha hb
    · constructor
      · intro h; simp at h
      · rintro ⟨h1, _⟩; exact absurd h1 (not_le.mpr ha)
    · simp [not_lt.mp ha, hb]
    · simp [hb]
  · unfold check_margin_risk
    split_ifs with ha hb
    · constructor
      · intro h; simp at h
      · intro h1; exact absurd ha (not_lt.mpr (by linarith))
    · simp [not_le.mpr hb]
    · simp [not_lt.mp hb]

/-- C5 witness: margin ratio `0.9` with no unrealized loss triggers the
third rule: `(true, MEDIUM, 0.4)`. -/
theorem c5_risk_decision_rules_witness :
    should_reduce_position ⟨0, 0, 9/10⟩ 100 = ⟨true, .MEDIUM, 2/5⟩ :=
  (c5_risk_decision_rules ⟨0, 0, 9/10⟩ 100 (by norm_num)).2.2.1
    (by norm_num [stop_loss_ratio])
    (by norm_num)
    (by norm_num [check_margin_risk])

/-! Engine and scheduler theorems. -/

/-- C8: the emergency path of `need_order_update` bypasses the 15-second
re-quote cooldown: whenever a side holds a position with zero resting
take-profit quantity (long: `long_position > 0` and
`sell_long_orders = 0`; short: `short_position > 0` and
`buy_short_orders = 0`), `need_order_update` reports `true` for every
environment, in particular for every current time and every value of the
side's last-adjustment timestamp. -/
theorem c8_emergency_bypass (s : GridState) (env : Env) (current_price : ℚ) :
    (s.long_position > 0 → s.sell_long_orders = 0 →
        (need_order_update s env .long current_price).2 = true) ∧
    (s.short_position > 0 → s.buy_short_orders = 0 →
        (need_order_update s env .short current_price).2 = true) := by
  constructor
  · intro h1 h2
    have he : is_emergency_missing_orders s .long = true := by
      simp [is_emergency_missing_orders, h1, h2]
    simp [need_order_update, he]
  · intro h1 h2
    have he : is_emergency_missing_orders s .short = true := by
      simp [is_emergency_missing_orders, h1, h2]
    simp [need_order_update, he]

/-- C8 witness: a long position with no resting take-profit triggers an
update even though the last adjustment was 1 second ago (the cooldown is
15 seconds). -/
theorem c8_emergency_bypass_witness :
    (need_order_update ({ long_position := 100, time_long_adjust := 999 } : GridState)
        envA .long 1).2 = true :=
  (c8_emergency_bypass { long_position := 100, time_long_adjust := 999 } envA 1).1
    (by norm_num) rfl

/-- C4: scheduler priority law.  When both `rebalance_immediately` and
`check_price_drift` are pending at the start of an iteration, that
iteration runs the immediate-rebalance handler to completion (the
iteration's state and actions are exactly the handler's) and does not
start the drift handler; and the drift handler starts only in an
iteration whose pending set does not contain `rebalance_immediately`. -/
theorem c4_scheduler_priority (s : GridState) (env : Env) :
    (s.pending_rebalance = true → s.pending_drift = true →
        (main_loop_iteration s env).2.2 = ⟨true, false⟩ ∧
        (main_loop_iteration s env).1 = (handle_immediate_rebalance s env).1 ∧
        (main_loop_iteration s env).2.1 = (handle_immediate_rebalance s env).2) ∧
    ((main_loop_iteration s env).2.2.ranDrift = true → s.pending_rebalance = false) := by
  constructor
  · intro h1 h2
    refine ⟨?_, ?_, ?_⟩ <;> simp [main_loop_iteration, h1]
  · intro h
    by_cases hr : s.pending_rebalance = true
    · exfalso
      simp [main_loop_iteration, hr] at h
    · simpa using hr

/-- C4 witness: with both events pending, the iteration reports that the
rebalance handler ran and the drift handler did not. -/
theorem c4_scheduler_priority_witness :
    (main_loop_iteration ({ pending_rebalance := true, pending_drift := true } : GridState)
        envA).2.2 = ⟨true, false⟩ :=
  ((c4_scheduler_priority { pending_rebalance := true, pending_drift := true } envA).1
    rfl rfl).1

/-- C7 counterexample: `ExchangeClient.cancel_order` does **not** swallow
an order-not-found failure — it logs and re-raises it, so the error does
propagate to its caller. -/
theorem c7_counterexample :
    cancel_order .orderNotFound = .error .orderNotFound ∧
    cancel_order .orderNotFound ≠ .ok () := by
  exact ⟨rfl, by simp [cancel_order]⟩

/-- C7 (amended): `ExchangeClient.cancel_order` logs a cancellation
failure and re-raises it (third conjunct); it is the strategy-level
`cancel_orders_for_side` that treats the raised `OrderNotFound` as a
benign race: it resynchronizes the ledger immediately
(`check_orders_status` on the fresh open-orders query) and escalates no
error to its caller. -/
theorem c7_cancel_missing_resync (s : GridState) (env : Env) (ss : StratSide)
    (h : (cancelLoop ss env.cancelOutcome env.openOrders).2 = some .orderNotFound) :
    Action.resync ∈ (cancel_orders_for_side s env ss).2 ∧
    (cancel_orders_for_side s env ss).1 = check_orders_status s env.openOrders ∧
    (∀ oc : CancelOutcome, oc ≠ .ok → cancel_order oc = .error oc) := by
  have hne : env.openOrders ≠ [] := by
    intro hnil
    rw [hnil] at h
    simp [cancelLoop] at h
  have hlen : ¬ env.openOrders.length = 0 := by
    simpa [List.length_eq_zero] using hne
  refine ⟨?_, ?_, ?_⟩
  · simp [cancel_orders_for_side, hlen, h]
  · simp [cancel_orders_for_side, hlen, h]
  · intro oc hoc
    cases oc
    · exact absurd rfl hoc
    · rfl
    · rfl

/-- C7 (amended) witness: cancelling the long side when the single open
order has already disappeared resyncs instead of escalating. -/
theorem c7_cancel_missing_resync_witness :
    Action.resync ∈ (cancel_orders_for_side ({} : GridState) c7env .long).2 :=
  (c7_cancel_missing_resync {} c7env .long rfl).1

/-- C2 (amended): risk preemption holds on the tick-driven
`adjust_grid_strategy` path: when a side's position is nonzero and
`should_reduce_position` answers `should_reduce = true` with HIGH or
MEDIUM urgency, the whole cycle's trace is exactly one reduce-only
market order closing that side — no initialization and no re-quote order
is placed for any side in that cycle (the long side preempts the short
check as well). -/
theorem c2_adjust_grid_preemption (s : GridState) (env : Env) :
    (s.long_position > 0 →
      (should_reduce_position (riskLong env) (s.long_position * s.latest_price)).should_reduce
          = true →
      ((should_reduce_position (riskLong env) (s.long_position * s.latest_price)).urgency
            = Urgency.HIGH ∨
        (should_reduce_position (riskLong env) (s.long_position * s.latest_price)).urgency
            = Urgency.MEDIUM) →
      ∃ q, (adjust_grid_strategy s env).2 =
        [Action.place Side.sell none q true PositionSide.LONG true]) ∧
    (¬ (s.long_position > 0 ∧
        (should_reduce_position (riskLong env) (s.long_position * s.latest_price)).should_reduce
            = true ∧
        ((should_reduce_position (riskLong env) (s.long_position * s.latest_price)).urgency
              = Urgency.HIGH ∨
          (should_reduce_position (riskLong env) (s.long_position * s.latest_price)).urgency
              = Urgency.MEDIUM)) →
      s.short_position > 0 →
      (should_reduce_position (riskShort env) (s.short_position * s.latest_price)).should_reduce
          = true →
      ((should_reduce_position (riskShort env) (s.short_position * s.latest_price)).urgency
            = Urgency.HIGH ∨
        (should_reduce_position (riskShort env) (s.short_position * s.latest_price)).urgency
            = Urgency.MEDIUM) →
      ∃ q, (adjust_grid_strategy s env).2 =
        [Action.place Side.buy none q true PositionSide.SHORT true]) := by
  constructor
  · intro h1 h2 h3
    simp only [adjust_grid_strategy]
    rw [if_pos ⟨h1, h2, h3⟩]
    exact ⟨_, rfl⟩
  · intro hn h1 h2 h3
    simp only [adjust_grid_strategy]
    rw [if_neg hn, if_pos ⟨h1, h2, h3⟩]
    exact ⟨_, rfl⟩

/-- C2 (amended) witness: a long position of 10 at price 10 with an
unrealized loss of 100 trips the stop-loss rule, and the tick-driven
cycle emits exactly the one reduce-only market sell. -/
theorem c2_adjust_grid_preemption_witness :
    ∃ q, (adjust_grid_strategy ({ long_position := 10, latest_price := 10 } : GridState)
        envB).2 = [Action.place Side.sell none q true PositionSide.LONG true] :=
  (c2_adjust_grid_preemption { long_position := 10, latest_price := 10 } envB).1
    (by norm_num)
    (by norm_num [should_reduce_position, riskLong, envB, envA, stop_loss_ratio])
    (Or.inl (by norm_num [should_reduce_position, riskLong, envB, envA, stop_loss_ratio]))

/-- C2 counterexample: on the event-driven path the claim fails.  In the
state `c2state` (long position 10, short position 1, price 10) with the
stop-loss-tripping environment `envB`, one `_handle_immediate_rebalance`
cycle places the long reduce-only market order (quantity 5 = 10 × 0.5)
**and**, in the same cycle, a non-reduce-only re-entry buy order for the
same LONG side (50 contracts at 9.99): `_perform_risk_checks` does not
abort the cycle, so the emergency re-quote path still runs for the very
side that was just risk-reduced. -/
theorem c2_counterexample :
    Action.place Side.sell none 5 true PositionSide.LONG true ∈
      (handle_immediate_rebalance c2state envB).2 ∧
    Action.place Side.buy (some (999/100)) 50 false PositionSide.LONG false ∈
      (handle_immediate_rebalance c2state envB).2 := by
  constructor <;>
    norm_num [handle_immediate_rebalance, check_orders_status, snapshotStep,
      perform_risk_checks, should_reduce_position, check_margin_risk, riskLong, riskShort,
      stop_loss_ratio, place_order, pyRound, roundHalfEven, need_order_update,
      check_quantity_missing, check_order_prices_reasonable, is_emergency_missing_orders,
      set_adjustment_time, get_adjustment_time, place_long_orders, place_short_orders,
      cancel_orders_for_side, get_take_profit_quantity, get_final_quantity,
      get_base_quantity, get_hedge_adjustment_quantity, update_mid_price,
      place_take_profit_order, tpDuplicate, GRID_SPACING, INITIAL_QUANTITY,
      quantity_threshold_ratio, MIN_ORDER_ADJUSTMENT_INTERVAL, max_def,
      c2state, envB, envA]

end GirdBot
